import Mathlib

/-!
Shallow embedding of the snek chain-sync input stage and chain-sync filter
stage, with proofs of the specification's claims about them.

The Go sources embedded here are:
- the chain-sync input plugin (`ChainSync`, `setupConnection`,
  `handleRollForward`, `handleRollBackward`, `handleBlockFetchBlock`,
  `updateStatus`) together with its `BlockEvent` and `TransactionEvent`
  constructors;
- the chain-sync filter stage (`ChainSync.Start` of the filter package),
  embedded as the pure keep/drop predicate its processing loop applies to
  each event.

External collaborators (the gouroboros ledger types, network registry,
protocol clients, hashing) appear as parameters or as plain records exposing
exactly the interface the embedded code consumes.
-/

namespace Snek

/-- `ocommon.Point`: a chain position, `{Slot uint64, Hash []byte}`.
Bytes are modelled as `Nat` values (the code never looks inside them
beyond hex-encoding). -/
structure Point where
  slot : Nat
  hash : List Nat
deriving DecidableEq, Repr

/-- `ochainsync.Tip`: the node's current chain head, `{Point, BlockNumber}`. -/
structure Tip where
  point : Point
  blockNumber : Nat
deriving DecidableEq, Repr

/-- `ChainSyncStatus` from the input plugin. -/
structure ChainSyncStatus where
  slotNumber : Nat
  blockNumber : Nat
  blockHash : String
  tipSlotNumber : Nat
  tipBlockHash : String
  tipReached : Bool
deriving DecidableEq, Repr

/-- The hex digit used by `encoding/hex`: lowercase. -/
def hexChar (n : Nat) : Char :=
  if n < 10 then Char.ofNat (48 + n) else Char.ofNat (87 + n)

/-- One byte rendered as two lowercase hex digits, as `encoding/hex` does. -/
def byteToHex (b : Nat) : String :=
  String.mk [hexChar ((b / 16) % 16), hexChar (b % 16)]

/-- `hex.EncodeToString`. -/
def hexEncode (bs : List Nat) : String :=
  String.join (bs.map byteToHex)

/-- Value of a single hex digit, as `encoding/hex` accepts them. -/
def hexVal (ch : Char) : Option Nat :=
  let n := ch.toNat
  if 48 ≤ n ∧ n ≤ 57 then some (n - 48)
  else if 97 ≤ n ∧ n ≤ 102 then some (n - 87)
  else if 65 ≤ n ∧ n ≤ 70 then some (n - 55)
  else none

/-- `hex.DecodeString` on a character list: decodes byte pairs, stopping at
the first invalid pair (the caller in the source ignores the error value). -/
def hexDecodeList : List Char → List Nat
  | a :: b :: rest =>
    match hexVal a, hexVal b with
    | some x, some y => (16 * x + y) :: hexDecodeList rest
    | _, _ => []
  | _ => []

/-- `hex.DecodeString`, error ignored as at the call site in the source. -/
def hexDecode (s : String) : List Nat :=
  hexDecodeList s.data

/-! ### The gouroboros ledger interface

The input plugin and the filter consume `ledger.Block`, `ledger.Transaction`
and `ledger.TransactionOutput` only through the methods below, so those
external types are embedded as records exposing exactly those methods. -/

/-- The part of a `ledger.TransactionOutput`'s address the filter reads:
`Address().String()` and `Address().StakeAddress()` (the latter returns nil
when no stake address can be derived, modelled as `none`; a non-nil result
is read only via `.String()`, so it is modelled as the resulting string). -/
structure Addr where
  str : String
  stakeAddr : Option String
deriving DecidableEq, Repr

/-- A ledger policy identifier, read via `.String()` and `.Bytes()`. -/
structure PolicyId where
  str : String
  bytes : List Nat
deriving DecidableEq, Repr

/-- A `MultiAsset` bundle: an association from policy to the asset names
minted under it. `Policies()` lists the policies; `Assets(p)` returns the
asset names (byte sequences) under policy `p`. -/
structure AssetBundle where
  entries : List (PolicyId × List (List Nat))
deriving DecidableEq, Repr

/-- `output.Assets().Policies()`. -/
def AssetBundle.policies (b : AssetBundle) : List PolicyId :=
  b.entries.map (·.1)

/-- `output.Assets().Assets(policyId)`. -/
def AssetBundle.assets (b : AssetBundle) (p : PolicyId) : List (List Nat) :=
  match b.entries.find? (fun e => e.1 == p) with
  | some e => e.2
  | none => []

/-- A `ledger.TransactionInput`; the embedded code only carries these,
never inspects them. -/
structure TransactionInput where
  raw : List Nat
deriving DecidableEq, Repr

/-- A `ledger.TransactionOutput`, as consumed by the event constructors and
the filter: `Address()` and `Assets()` (nil when the output carries no
asset bundle). -/
structure TransactionOutput where
  address : Addr
  assets : Option AssetBundle
deriving DecidableEq, Repr

/-- A `ledger.Transaction`, as consumed by `NewTransactionEvent`:
`Hash()`, `Inputs()`, `Outputs()`, `Cbor()`, `Metadata()` (nil modelled as
`none`). -/
structure Transaction where
  hash : String
  inputs : List TransactionInput
  outputs : List TransactionOutput
  cbor : List Nat
  metadata : Option (List Nat)
deriving DecidableEq, Repr

/-- A `ledger.Block`, as consumed by the handlers: `SlotNumber()`,
`BlockNumber()`, `Hash()`, `Transactions()`, `Cbor()`. -/
structure Block where
  slotNumber : Nat
  blockNumber : Nat
  hash : String
  transactions : List Transaction
  cbor : List Nat
deriving DecidableEq, Repr

/-- A `ledger.BlockHeader`, as consumed by the header arm of
`handleRollForward`: `SlotNumber()`, `BlockNumber()`, `Hash()`. -/
structure BlockHeader where
  slotNumber : Nat
  blockNumber : Nat
  hash : String
deriving DecidableEq, Repr

/-! ### Event payloads (input/chainsync package) -/

/-- `BlockEvent` from `input/chainsync/block.go`. The `BlockCbor` field's Go
zero value is a nil byte slice, modelled as `[]`. -/
structure BlockEvent where
  blockNumber : Nat
  blockHash : String
  slotNumber : Nat
  blockCbor : List Nat
deriving DecidableEq, Repr

/-- `NewBlockEvent` from `input/chainsync/block.go`. -/
def NewBlockEvent (block : Block) (includeCbor : Bool) : BlockEvent :=
  let evt : BlockEvent :=
    { blockNumber := block.blockNumber
      blockHash := block.hash
      slotNumber := block.slotNumber
      blockCbor := [] }
  if includeCbor then { evt with blockCbor := block.cbor } else evt

/-- `TransactionEvent` from `input/chainsync/tx.go`. -/
structure TransactionEvent where
  blockNumber : Nat
  blockHash : String
  slotNumber : Nat
  transactionHash : String
  transactionCbor : List Nat
  inputs : List TransactionInput
  outputs : List TransactionOutput
  metadata : Option (List Nat)
deriving DecidableEq, Repr

/-- `NewTransactionEvent` from `input/chainsync/tx.go`. -/
def NewTransactionEvent (block : Block) (tx : Transaction) (includeCbor : Bool) :
    TransactionEvent :=
  let evt : TransactionEvent :=
    { blockNumber := block.blockNumber
      blockHash := block.hash
      slotNumber := block.slotNumber
      transactionHash := tx.hash
      transactionCbor := []
      inputs := tx.inputs
      outputs := tx.outputs
      metadata := none }
  let evt := if includeCbor then { evt with transactionCbor := tx.cbor } else evt
  match tx.metadata with
  | some m => { evt with metadata := some m }
  | none => evt

/-- Modelled from the spec: the rollback event payload type and its
constructor `NewRollbackEvent` live in a file of this repository that is not
under src/. Its call site in `handleRollBackward` passes only the rollback
point, so the payload is modelled as carrying that point. -/
structure RollbackEvent where
  point : Point
deriving DecidableEq, Repr

/-- Modelled from the spec: constructor of the rollback payload, applied to
the single argument its call site in `handleRollBackward` supplies. -/
def NewRollbackEvent (point : Point) : RollbackEvent :=
  { point := point }

/-- The closed tagged union of payloads travelling through the event
channels (§3 of the spec; the Go code uses a dynamic payload field
inhabited by exactly these three types). -/
inductive EventPayload where
  | blk : BlockEvent → EventPayload
  | tx : TransactionEvent → EventPayload
  | rollback : RollbackEvent → EventPayload
deriving DecidableEq, Repr

/-- Modelled from the spec: the `event` package is not under src/. The spec
gives the envelope as `{kind, timestamp, payload}`; the wall-clock timestamp
taken by `event.New` is inherently non-deterministic and no claim mentions
it, so the envelope is modelled by its kind string and payload. -/
structure Event where
  kind : String
  payload : EventPayload
deriving DecidableEq, Repr

/-- `event.New` as invoked by the handlers (timestamp dropped, see `Event`). -/
def eventNew (kind : String) (payload : EventPayload) : Event :=
  { kind := kind, payload := payload }

/-! ### The chain-sync input engine (`input/chainsync/chainsync.go`) -/

/-- The fields of the input plugin's `ChainSync` struct that its protocol
handlers read or write. Channels are represented by the event and
status-callback lists the handler embeddings return; the connection handle
and configuration fields consumed only by `Start`/`setupConnection` are
embedded separately with those functions. `hasStatusUpdateFunc` models
whether `statusUpdateFunc` is nil. -/
structure EngineState where
  status : ChainSyncStatus
  bulkRangeEnd : Point
  includeCbor : Bool
  hasStatusUpdateFunc : Bool
deriving DecidableEq, Repr

/-- `updateStatus`: decides the tip-reached transition from the previous
status, then records the new slot/block/hash and tip reference
unconditionally, then invokes the status callback (when set) with the new
status. Returns the new engine state and the list of callback invocations
(empty or a singleton). -/
def updateStatus (c : EngineState) (slotNumber blockNumber : Nat)
    (blockHash : String) (tipSlotNumber : Nat) (tipBlockHash : String) :
    EngineState × List ChainSyncStatus :=
  let tipReached :=
    if !c.status.tipReached then
      if slotNumber > c.bulkRangeEnd.slot then
        if c.status.slotNumber > 0 ∧ slotNumber ≥ c.status.tipSlotNumber then
          true
        else
          c.status.tipReached
      else
        c.status.tipReached
    else
      c.status.tipReached
  let newStatus : ChainSyncStatus :=
    { slotNumber := slotNumber
      blockNumber := blockNumber
      blockHash := blockHash
      tipSlotNumber := tipSlotNumber
      tipBlockHash := tipBlockHash
      tipReached := tipReached }
  ({ c with status := newStatus },
   if c.hasStatusUpdateFunc then [newStatus] else [])

/-- `handleRollBackward`: emits a rollback event built from the point alone
and returns; the status record and the callback are untouched (the `tip`
argument is received but unused, as in the source). -/
def handleRollBackward (c : EngineState) (point : Point) (tip : Tip) :
    EngineState × List Event × List ChainSyncStatus :=
  let _ := tip
  let evt := eventNew "chainsync.rollback"
    (EventPayload.rollback (NewRollbackEvent point))
  (c, [evt], [])

/-- The dynamic `blockData` argument of `handleRollForward`: the source
switches on whether it is a full `ledger.Block` or a `ledger.BlockHeader`. -/
inductive BlockData where
  | full : Block → BlockData
  | header : BlockHeader → BlockData
deriving Repr

/-- `handleRollForward`. `fetchBlock` stands for the external
`BlockFetch().Client.GetBlock` call of the header arm; `none` is its error
case, which the handler propagates (here as `Except.error`) before touching
status. In the full-block arm the source emits the block event and updates
status; it does not iterate the block's transactions. -/
def handleRollForward (fetchBlock : Point → Option Block) (c : EngineState)
    (blockData : BlockData) (tip : Tip) :
    Except String (EngineState × List Event × List ChainSyncStatus) :=
  match blockData with
  | BlockData.full v =>
    let evt := eventNew "chainsync.block"
      (EventPayload.blk (NewBlockEvent v c.includeCbor))
    let su := updateStatus c v.slotNumber v.blockNumber v.hash
      tip.point.slot (hexEncode tip.point.hash)
    Except.ok (su.1, [evt], su.2)
  | BlockData.header v =>
    let blockSlot := v.slotNumber
    let blockHash := hexDecode v.hash
    match fetchBlock { slot := blockSlot, hash := blockHash } with
    | none => Except.error "block fetch failed"
    | some block =>
      let blockEvt := eventNew "chainsync.block"
        (EventPayload.blk (NewBlockEvent block c.includeCbor))
      let txEvts := block.transactions.map (fun transaction =>
        eventNew "chainsync.transaction"
          (EventPayload.tx (NewTransactionEvent block transaction c.includeCbor)))
      let su := updateStatus c v.slotNumber v.blockNumber v.hash
        tip.point.slot (hexEncode tip.point.hash)
      Except.ok (su.1, blockEvt :: txEvts, su.2)

/-- `handleBlockFetchBlock`: emits the block event, then one transaction
event per transaction in block order, updates status with `bulkRangeEnd` as
the tip reference, and — exactly when the block's slot equals
`bulkRangeEnd.slot` — issues the transition request
`ChainSync().Client.Sync([]Point{bulkRangeEnd})`, returned here as the
optional intersection-point list of that request. -/
def handleBlockFetchBlock (c : EngineState) (block : Block) :
    EngineState × List Event × List ChainSyncStatus × Option (List Point) :=
  let blockEvt := eventNew "chainsync.block"
    (EventPayload.blk (NewBlockEvent block c.includeCbor))
  let txEvts := block.transactions.map (fun transaction =>
    eventNew "chainsync.transaction"
      (EventPayload.tx (NewTransactionEvent block transaction c.includeCbor)))
  let su := updateStatus c block.slotNumber block.blockNumber block.hash
    c.bulkRangeEnd.slot (hexEncode c.bulkRangeEnd.hash)
  let transitionReq : Option (List Point) :=
    if block.slotNumber = c.bulkRangeEnd.slot then some [c.bulkRangeEnd]
    else none
  (su.1, blockEvt :: txEvts, su.2, transitionReq)

/-- Processing a sequence of bulk-fetched blocks: threads the engine state
through `handleBlockFetchBlock` and concatenates the emitted events, the
callback invocations, and the issued transition requests. -/
def runBulkBlocks (c : EngineState) :
    List Block → EngineState × List Event × List ChainSyncStatus × List (List Point)
  | [] => (c, [], [], [])
  | b :: rest =>
    let step := handleBlockFetchBlock c b
    let tail := runBulkBlocks step.1 rest
    (tail.1, step.2.1 ++ tail.2.1, step.2.2.1 ++ tail.2.2.1,
     (match step.2.2.2 with
      | some req => [req]
      | none => []) ++ tail.2.2.2)

/-- One protocol notification delivered to the engine, covering every
handler that can run after start. -/
inductive EngineOp where
  | rollForward : BlockData → Tip → EngineOp
  | rollBackward : Point → Tip → EngineOp
  | blockFetch : Block → EngineOp

/-- The engine-state effect of one notification. A failing targeted fetch
makes `handleRollForward` return before `updateStatus`, leaving the state
unchanged. -/
def stepOp (fetchBlock : Point → Option Block) (c : EngineState) :
    EngineOp → EngineState
  | EngineOp.rollForward bd tip =>
    match handleRollForward fetchBlock c bd tip with
    | Except.ok res => res.1
    | Except.error _ => c
  | EngineOp.rollBackward p tip => (handleRollBackward c p tip).1
  | EngineOp.blockFetch b => (handleBlockFetchBlock c b).1

/-- The engine state after a sequence of notifications. -/
def runOps (fetchBlock : Point → Option Block) (c : EngineState) :
    List EngineOp → EngineState
  | [] => c
  | op :: rest => runOps fetchBlock (stepOp fetchBlock c op) rest

/-- The trace of `tipReached` values along a run, starting with the initial
state's value. -/
def tipTrace (fetchBlock : Point → Option Block) (c : EngineState) :
    List EngineOp → List Bool
  | [] => [c.status.tipReached]
  | op :: rest =>
    c.status.tipReached :: tipTrace fetchBlock (stepOp fetchBlock c op) rest

/-- Number of false-to-true transitions between adjacent entries of a
Boolean trace. -/
def riseCount : List Bool → Nat
  | [] => 0
  | [_] => 0
  | a :: b :: rest =>
    (if a = false ∧ b = true then 1 else 0) + riseCount (b :: rest)

/-! ### The chain-sync filter stage (`filter/chainsync/chainsync.go`)

The stage's goroutine applies, to each event taken from its input channel,
a pure keep/drop decision and forwards the kept events unchanged. That
decision is embedded below. `NewAssetFingerprint` is an external
deterministic hash from the ledger library, so it appears as the
`fingerprint` parameter (policy bytes and asset-name bytes to the rendered
fingerprint string). -/

/-- The filter criteria fields of the filter package's `ChainSync` struct. -/
structure FilterCriteria where
  filterAddresses : List String
  filterPolicyIds : List String
  filterAssetFingerprints : List String
deriving DecidableEq, Repr

/-- `strings.HasPrefix`, on the underlying character sequences. -/
def hasPrefixStr (s pre : String) : Bool :=
  pre.data.isPrefixOf s.data

/-- The inner output scan of the address filter, for one configured
`filterAddress`: an exact match on the output's address string, or — when
the configured string starts with "stake" — a match on the output's derived
stake address, skipped when that derivation returns nil. -/
def addressMatchOutput (filterAddress : String) (output : TransactionOutput) :
    Bool :=
  if output.address.str == filterAddress then true
  else if hasPrefixStr filterAddress "stake" then
    match output.address.stakeAddr with
    | none => false
    | some stakeAddr => stakeAddr == filterAddress
  else false

/-- The address category: some configured address matches some output. -/
def addressCategoryMatch (filterAddresses : List String)
    (outputs : List TransactionOutput) : Bool :=
  filterAddresses.any (fun filterAddress =>
    outputs.any (addressMatchOutput filterAddress))

/-- The inner output scan of the policy-ID filter: outputs whose `Assets()`
is nil are skipped; otherwise the bundle's policy identifiers are compared
to the configured string. -/
def policyMatchOutput (filterPolicyId : String) (output : TransactionOutput) :
    Bool :=
  match output.assets with
  | none => false
  | some bundle => bundle.policies.any (fun policyId => policyId.str == filterPolicyId)

/-- The policy-ID category: some configured policy ID matches some output. -/
def policyCategoryMatch (filterPolicyIds : List String)
    (outputs : List TransactionOutput) : Bool :=
  filterPolicyIds.any (fun filterPolicyId =>
    outputs.any (policyMatchOutput filterPolicyId))

/-- The inner output scan of the asset-fingerprint filter: outputs with a
nil asset bundle are skipped; otherwise each (policy, asset-name) pair's
fingerprint is compared to the configured string. -/
def fingerprintMatchOutput (fingerprint : List Nat → List Nat → String)
    (filterAssetFingerprint : String) (output : TransactionOutput) : Bool :=
  match output.assets with
  | none => false
  | some bundle => bundle.policies.any (fun policyId =>
      (bundle.assets policyId).any (fun assetName =>
        fingerprint policyId.bytes assetName == filterAssetFingerprint))

/-- The asset-fingerprint category. -/
def fingerprintCategoryMatch (fingerprint : List Nat → List Nat → String)
    (filterAssetFingerprints : List String)
    (outputs : List TransactionOutput) : Bool :=
  filterAssetFingerprints.any (fun filterAssetFingerprint =>
    outputs.any (fingerprintMatchOutput fingerprint filterAssetFingerprint))

/-- The keep/drop decision of the filter stage's loop body: transaction
events run the three category checks in source order, each applied only
when its criteria list is non-empty and dropping the event (the loop's
`continue`) when it finds no match; all other events fall through the type
switch and are forwarded. -/
def filterStageKeeps (fingerprint : List Nat → List Nat → String)
    (c : FilterCriteria) (evt : Event) : Bool :=
  match evt.payload with
  | EventPayload.tx v =>
    if c.filterAddresses.length > 0 &&
        !(addressCategoryMatch c.filterAddresses v.outputs) then false
    else if c.filterPolicyIds.length > 0 &&
        !(policyCategoryMatch c.filterPolicyIds v.outputs) then false
    else if c.filterAssetFingerprints.length > 0 &&
        !(fingerprintCategoryMatch fingerprint c.filterAssetFingerprints v.outputs) then
      false
    else true
  | _ => true

/-! ### Connection setup and start (`setupConnection`, `Start`) -/

/-- The fields of a gouroboros network-registry entry that
`setupConnection` reads. `NetworkByName` returning `NetworkInvalid` is
modelled as the lookup function returning `none`. -/
structure Network where
  networkMagic : Nat
  publicRootAddress : String
  publicRootPort : Nat
deriving DecidableEq, Repr

/-- The configuration fields of the input plugin's `ChainSync` struct
consumed by `setupConnection` and `Start`. -/
structure ConnConfig where
  network : String
  address : String
  socketPath : String
  ntcTcp : Bool
  bulkMode : Bool
  intersectTip : Bool
  intersectPoints : List Point
deriving DecidableEq, Repr

/-- The connection parameters `setupConnection` determines before dialing. -/
structure DialParams where
  dialFamily : String
  dialAddress : String
  useNtn : Bool
  networkMagic : Nat
deriving DecidableEq, Repr

/-- The parameter-determination logic of `setupConnection`: network-name
lookup (with its two error-free effects: recording the magic and defaulting
the dial target to the network's public root when it has one), then the
user-supplied address or socket path, and the configuration error when no
dial target results. -/
def setupConnectionParams (networkByName : String → Option Network)
    (c : ConnConfig) : Except String DialParams :=
  let base : DialParams :=
    { dialFamily := "", dialAddress := "", useNtn := false, networkMagic := 0 }
  let afterNetwork : Except String DialParams :=
    if c.network ≠ "" then
      match networkByName c.network with
      | none => Except.error ("unknown network: " ++ c.network)
      | some network =>
        let p := { base with networkMagic := network.networkMagic }
        if network.publicRootAddress ≠ "" ∧ network.publicRootPort > 0 then
          Except.ok { p with
            dialFamily := "tcp"
            dialAddress := network.publicRootAddress ++ ":" ++
              toString network.publicRootPort
            useNtn := true }
        else
          Except.ok p
    else
      Except.ok base
  match afterNetwork with
  | Except.error e => Except.error e
  | Except.ok p =>
    if c.address ≠ "" then
      Except.ok { p with
        dialFamily := "tcp"
        dialAddress := c.address
        useNtn := if c.ntcTcp then false else true }
    else if c.socketPath ≠ "" then
      Except.ok { p with
        dialFamily := "unix"
        dialAddress := c.socketPath
        useNtn := false }
    else if p.dialFamily = "" ∨ p.dialAddress = "" then
      Except.error
        "you must specify a host/port, UNIX socket path, or well-known network name"
    else
      Except.ok p

/-- The external protocol collaborator as `Start` uses it: connection
creation plus dial (collapsed into `dial`), the availability of a
block-fetch client, and the startup protocol queries. Each call may fail
with an error the engine propagates. -/
structure ProtocolOps where
  dial : DialParams → Except String Unit
  hasBlockFetch : Bool
  getAvailableBlockRange : List Point → Except String (Point × Point)
  getBlockRange : Point → Point → Except String Unit
  getCurrentTip : Except String Tip
  sync : List Point → Except String Unit

/-- `ChainSync.Start` of the input plugin: `setupConnection` (parameter
determination, then dial), then mode selection — the bulk path queries the
available block range and requests the range fetch, the incremental path
optionally resolves the current tip as the sole intersection point and
requests chain-sync. Any error is returned synchronously; no event is
emitted by `Start` itself (events only arise from later handler
invocations). Returns the bulk range recorded on the engine, when any. -/
def chainSyncStart (networkByName : String → Option Network)
    (ops : ProtocolOps) (c : ConnConfig) : Except String (Option (Point × Point)) :=
  match setupConnectionParams networkByName c with
  | Except.error e => Except.error e
  | Except.ok params =>
    match ops.dial params with
    | Except.error e => Except.error e
    | Except.ok _ =>
      if c.bulkMode ∧ ¬c.intersectTip ∧ ops.hasBlockFetch then
        match ops.getAvailableBlockRange c.intersectPoints with
        | Except.error e => Except.error e
        | Except.ok range =>
          match ops.getBlockRange range.1 range.2 with
          | Except.error e => Except.error e
          | Except.ok _ => Except.ok (some range)
      else
        let tipResolved : Except String (List Point) :=
          if c.intersectTip then
            match ops.getCurrentTip with
            | Except.error e => Except.error e
            | Except.ok tip => Except.ok [tip.point]
          else
            Except.ok c.intersectPoints
        match tipResolved with
        | Except.error e => Except.error e
        | Except.ok points =>
          match ops.sync points with
          | Except.error e => Except.error e
          | Except.ok _ => Except.ok none

/-! ### Helper lemmas -/

theorem updateStatus_tipReached_mono (c : EngineState) (s bn : Nat)
    (bh : String) (ts : Nat) (th : String)
    (h : c.status.tipReached = true) :
    ((updateStatus c s bn bh ts th).1).status.tipReached = true := by
  simp [updateStatus, h]

theorem stepOp_tipReached_mono (fetchBlock : Point → Option Block)
    (c : EngineState) (op : EngineOp)
    (h : c.status.tipReached = true) :
    (stepOp fetchBlock c op).status.tipReached = true := by
  cases op with
  | rollForward bd tip =>
    cases bd with
    | full v =>
      simpa [stepOp, handleRollForward] using
        updateStatus_tipReached_mono c v.slotNumber v.blockNumber v.hash
          tip.point.slot (hexEncode tip.point.hash) h
    | header v =>
      cases hf : fetchBlock { slot := v.slotNumber, hash := hexDecode v.hash } with
      | none => simpa [stepOp, handleRollForward, hf] using h
      | some block =>
        simpa [stepOp, handleRollForward, hf] using
          updateStatus_tipReached_mono c v.slotNumber v.blockNumber v.hash
            tip.point.slot (hexEncode tip.point.hash) h
  | rollBackward p tip =>
    simpa [stepOp, handleRollBackward] using h
  | blockFetch b =>
    simpa [stepOp, handleBlockFetchBlock] using
      updateStatus_tipReached_mono c b.slotNumber b.blockNumber b.hash
        c.bulkRangeEnd.slot (hexEncode c.bulkRangeEnd.hash) h

theorem runOps_tipReached_mono (fetchBlock : Point → Option Block) :
    ∀ (ops : List EngineOp) (c : EngineState),
      c.status.tipReached = true →
      (runOps fetchBlock c ops).status.tipReached = true := by
  intro ops
  induction ops with
  | nil => intro c h; simpa [runOps] using h
  | cons op rest ih =>
    intro c h
    simpa [runOps] using ih (stepOp fetchBlock c op)
      (stepOp_tipReached_mono fetchBlock c op h)

theorem tipTrace_all_true (fetchBlock : Point → Option Block) :
    ∀ (ops : List EngineOp) (c : EngineState),
      c.status.tipReached = true →
      ∀ x ∈ tipTrace fetchBlock c ops, x = true := by
  intro ops
  induction ops with
  | nil => intro c h x hx; simp [tipTrace] at hx; simpa [hx] using h
  | cons op rest ih =>
    intro c h x hx
    simp [tipTrace] at hx
    rcases hx with hx | hx
    · simpa [hx] using h
    · exact ih (stepOp fetchBlock c op)
        (stepOp_tipReached_mono fetchBlock c op h) x hx

theorem riseCount_all_true :
    ∀ l : List Bool, (∀ x ∈ l, x = true) → riseCount l = 0
  | [] , _ => rfl
  | [_], _ => rfl
  | a :: b :: rest, h => by
    have ha : a = true := h a (by simp)
    have htail : ∀ x ∈ b :: rest, x = true := by
      intro x hx
      exact h x (by simpa using Or.inr (by simpa using hx))
    have hr := riseCount_all_true (b :: rest) htail
    simpa [riseCount, ha] using hr

theorem tipTrace_cons_form (fetchBlock : Point → Option Block)
    (c : EngineState) (ops : List EngineOp) :
    ∃ t, tipTrace fetchBlock c ops = c.status.tipReached :: t := by
  cases ops <;> simp [tipTrace]

theorem riseCount_tipTrace_le_one (fetchBlock : Point → Option Block) :
    ∀ (ops : List EngineOp) (c : EngineState),
      riseCount (tipTrace fetchBlock c ops) ≤ 1 := by
  intro ops
  induction ops with
  | nil => intro c; simp [tipTrace, riseCount]
  | cons op rest ih =>
    intro c
    by_cases h : c.status.tipReached = true
    · simp [riseCount_all_true _ (tipTrace_all_true fetchBlock (op :: rest) c h)]
    · have hfalse : c.status.tipReached = false := by
        cases hcc : c.status.tipReached
        · rfl
        · exact absurd hcc h
      obtain ⟨t, ht⟩ := tipTrace_cons_form fetchBlock (stepOp fetchBlock c op) rest
      by_cases h2 : (stepOp fetchBlock c op).status.tipReached = true
      · have hz : riseCount (tipTrace fetchBlock (stepOp fetchBlock c op) rest) = 0 :=
          riseCount_all_true _ (tipTrace_all_true fetchBlock rest _ h2)
        rw [ht, h2] at hz
        simp [tipTrace, ht, riseCount, hfalse, h2, hz]
      · have h2f : (stepOp fetchBlock c op).status.tipReached = false := by
          cases hcc : (stepOp fetchBlock c op).status.tipReached
          · rfl
          · exact absurd hcc h2
        have hle := ih (stepOp fetchBlock c op)
        rw [ht, h2f] at hle
        simp [tipTrace, ht, riseCount, hfalse, h2f]
        exact hle

/-! ### Claim theorems -/

/-- C2: for every engine instance and every sequence of status updates, the
`TipReached` field of `ChainSyncStatus` transitions from false to true at
most once (the run's tip-reached trace has at most one false-to-true
rise), and once true no later call to `updateStatus` nor any other engine
operation ever sets it back to false. -/
theorem claim_C2_tipReached_monotone (fetchBlock : Point → Option Block)
    (c : EngineState) (ops : List EngineOp) (s bn : Nat) (bh : String)
    (ts : Nat) (th : String) :
    (c.status.tipReached = true →
      ((updateStatus c s bn bh ts th).1).status.tipReached = true ∧
      (runOps fetchBlock c ops).status.tipReached = true) ∧
    riseCount (tipTrace fetchBlock c ops) ≤ 1 :=
  ⟨fun h => ⟨updateStatus_tipReached_mono c s bn bh ts th h,
    runOps_tipReached_mono fetchBlock ops c h⟩,
   riseCount_tipTrace_le_one fetchBlock ops c⟩

/-- Witness for C2 at a concrete engine state with `TipReached = true`, a
concrete notification sequence, and a concrete further status update. -/
theorem claim_C2_tipReached_monotone_witness :
    ((⟨⟨5, 3, "aa", 7, "bb", true⟩, ⟨0, []⟩, false, false⟩ :
        EngineState).status.tipReached = true) ∧
    (((updateStatus ⟨⟨5, 3, "aa", 7, "bb", true⟩, ⟨0, []⟩, false, false⟩
        9 4 "cc" 11 "dd").1).status.tipReached = true ∧
      (runOps (fun _ => none)
        ⟨⟨5, 3, "aa", 7, "bb", true⟩, ⟨0, []⟩, false, false⟩
        [EngineOp.rollBackward ⟨1, [2]⟩ ⟨⟨3, [4]⟩, 1⟩,
         EngineOp.blockFetch ⟨8, 4, "cc", [], []⟩]).status.tipReached = true) ∧
    riseCount (tipTrace (fun _ => none)
      ⟨⟨5, 3, "aa", 7, "bb", true⟩, ⟨0, []⟩, false, false⟩
      [EngineOp.rollBackward ⟨1, [2]⟩ ⟨⟨3, [4]⟩, 1⟩,
       EngineOp.blockFetch ⟨8, 4, "cc", [], []⟩]) ≤ 1 :=
  ⟨rfl,
   (claim_C2_tipReached_monotone (fun _ => none)
      ⟨⟨5, 3, "aa", 7, "bb", true⟩, ⟨0, []⟩, false, false⟩
      [EngineOp.rollBackward ⟨1, [2]⟩ ⟨⟨3, [4]⟩, 1⟩,
       EngineOp.blockFetch ⟨8, 4, "cc", [], []⟩] 9 4 "cc" 11 "dd").1 rfl,
   (claim_C2_tipReached_monotone (fun _ => none)
      ⟨⟨5, 3, "aa", 7, "bb", true⟩, ⟨0, []⟩, false, false⟩
      [EngineOp.rollBackward ⟨1, [2]⟩ ⟨⟨3, [4]⟩, 1⟩,
       EngineOp.blockFetch ⟨8, 4, "cc", [], []⟩] 9 4 "cc" 11 "dd").2⟩

theorem handleBlockFetchBlock_bulkRangeEnd (c : EngineState) (b : Block) :
    (handleBlockFetchBlock c b).1.bulkRangeEnd = c.bulkRangeEnd := rfl

theorem runBulkBlocks_transitions :
    ∀ (blocks : List Block) (c : EngineState),
      (runBulkBlocks c blocks).2.2.2 =
        List.replicate
          (blocks.countP (fun b => b.slotNumber == c.bulkRangeEnd.slot))
          [c.bulkRangeEnd] := by
  intro blocks
  induction blocks with
  | nil => intro c; simp [runBulkBlocks]
  | cons b rest ih =>
    intro c
    have ihc := ih (handleBlockFetchBlock c b).1
    rw [handleBlockFetchBlock_bulkRangeEnd c b] at ihc
    have htr : (handleBlockFetchBlock c b).2.2.2 =
        if b.slotNumber = c.bulkRangeEnd.slot then some [c.bulkRangeEnd]
        else none := rfl
    by_cases hs : b.slotNumber = c.bulkRangeEnd.slot
    · simp [runBulkBlocks, htr, hs, ihc, List.countP_cons, List.replicate_succ]
    · simp [runBulkBlocks, htr, hs, ihc, List.countP_cons]

/-- C4: for every supplied bulk range, the transition request that starts
the incremental chain-sync is issued by the block-fetch handler exactly
when the fetched block's slot equals the bulk range end's slot (blocks at
other slots cause no transition), it targets `bulkRangeEnd` as the sole
intersection point, and over a bulk run containing exactly one block at
that slot the transition is issued exactly once. -/
theorem claim_C4_bulk_transition (c : EngineState) (b : Block)
    (blocks : List Block)
    (h : blocks.countP (fun b2 => b2.slotNumber == c.bulkRangeEnd.slot) = 1) :
    ((handleBlockFetchBlock c b).2.2.2 =
      if b.slotNumber = c.bulkRangeEnd.slot then some [c.bulkRangeEnd]
      else none) ∧
    (runBulkBlocks c blocks).2.2.2 = [[c.bulkRangeEnd]] := by
  refine ⟨rfl, ?_⟩
  rw [runBulkBlocks_transitions blocks c, h]
  rfl

/-- Witness for C4: bulk range ending at slot 200, bulk run fetching
blocks at slots 100 and 200 (exactly one block at the end slot). -/
theorem claim_C4_bulk_transition_witness :
    ([(⟨100, 1, "b1", [], []⟩ : Block), ⟨200, 2, "b2", [], []⟩].countP
        (fun b2 => b2.slotNumber ==
          (⟨⟨0, 0, "", 0, "", false⟩, ⟨200, [9]⟩, false, false⟩ :
            EngineState).bulkRangeEnd.slot) = 1) ∧
    ((handleBlockFetchBlock
        ⟨⟨0, 0, "", 0, "", false⟩, ⟨200, [9]⟩, false, false⟩
        ⟨100, 1, "b1", [], []⟩).2.2.2 =
      if (100 : Nat) = 200 then some [⟨200, [9]⟩] else none) ∧
    (runBulkBlocks ⟨⟨0, 0, "", 0, "", false⟩, ⟨200, [9]⟩, false, false⟩
        [⟨100, 1, "b1", [], []⟩, ⟨200, 2, "b2", [], []⟩]).2.2.2 =
      [[⟨200, [9]⟩]] :=
  ⟨by decide,
   (claim_C4_bulk_transition
      ⟨⟨0, 0, "", 0, "", false⟩, ⟨200, [9]⟩, false, false⟩
      ⟨100, 1, "b1", [], []⟩
      [⟨100, 1, "b1", [], []⟩, ⟨200, 2, "b2", [], []⟩] (by decide)).1,
   (claim_C4_bulk_transition
      ⟨⟨0, 0, "", 0, "", false⟩, ⟨200, [9]⟩, false, false⟩
      ⟨100, 1, "b1", [], []⟩
      [⟨100, 1, "b1", [], []⟩, ⟨200, 2, "b2", [], []⟩] (by decide)).2⟩

/-- C5: `updateStatus` records the new slot/block/hash and tip slot/hash
unconditionally, and the resulting `TipReached` is true exactly when it
already was, or the current slot strictly exceeds the bulk range's end
slot, the previously recorded slot is non-zero, and the current slot is at
least the previously recorded tip slot (so it is newly set exactly when
not already true and those three conditions hold). In particular, after
feeding the blocks at slots 100, 150, 200 of `BulkRange{start: slot 100,
end: slot 200}` through the bulk block-fetch handler, `TipReached` is
still false. -/
theorem claim_C5_updateStatus_semantics (c : EngineState) (s bn : Nat)
    (bh : String) (ts : Nat) (th : String) :
    ((updateStatus c s bn bh ts th).1).status.slotNumber = s ∧
    ((updateStatus c s bn bh ts th).1).status.blockNumber = bn ∧
    ((updateStatus c s bn bh ts th).1).status.blockHash = bh ∧
    ((updateStatus c s bn bh ts th).1).status.tipSlotNumber = ts ∧
    ((updateStatus c s bn bh ts th).1).status.tipBlockHash = th ∧
    (((updateStatus c s bn bh ts th).1).status.tipReached = true ↔
      (c.status.tipReached = true ∨
        (s > c.bulkRangeEnd.slot ∧ c.status.slotNumber > 0 ∧
          s ≥ c.status.tipSlotNumber))) ∧
    (runBulkBlocks ⟨⟨0, 0, "", 0, "", false⟩, ⟨200, [9]⟩, false, false⟩
        [⟨100, 1, "b1", [], []⟩, ⟨150, 2, "b2", [], []⟩,
         ⟨200, 3, "b3", [], []⟩]).1.status.tipReached = false := by
  refine ⟨rfl, rfl, rfl, rfl, rfl, ?_, by decide⟩
  cases hc : c.status.tipReached with
  | true => simp [updateStatus, hc]
  | false =>
    simp only [updateStatus, hc, Bool.not_false, if_true]
    by_cases h1 : s > c.bulkRangeEnd.slot
    · by_cases h2 : c.status.slotNumber > 0 ∧ s ≥ c.status.tipSlotNumber
      · simp [h1, h2]
      · simp [h1, h2]
    · simp [h1]

/-- C8: a roll-backward notification leaves the `SyncStatus` record
entirely unchanged (all six fields) and does not invoke the status
observer callback. -/
theorem claim_C8_rollBackward_frame (c : EngineState) (point : Point)
    (tip : Tip) :
    (handleRollBackward c point tip).1.status = c.status ∧
    (handleRollBackward c point tip).1 = c ∧
    (handleRollBackward c point tip).2.2 = [] :=
  ⟨rfl, rfl, rfl⟩

/-- C3 counterexample: two roll-backward notifications at the same point
but with different chain tips produce identical emissions (same event, same
payload), so the emitted RollbackEvent's payload does not carry the
supplied chain tip — refuting the claim that it carries both the point and
the tip. -/
theorem claim_C3_counterexample :
    handleRollBackward ⟨⟨0, 0, "", 0, "", false⟩, ⟨0, []⟩, false, false⟩
        ⟨1, [2]⟩ ⟨⟨5, [1]⟩, 1⟩ =
      handleRollBackward ⟨⟨0, 0, "", 0, "", false⟩, ⟨0, []⟩, false, false⟩
        ⟨1, [2]⟩ ⟨⟨6, [2]⟩, 2⟩ ∧
    (⟨⟨5, [1]⟩, 1⟩ : Tip) ≠ ⟨⟨6, [2]⟩, 2⟩ :=
  ⟨rfl, by decide⟩

/-- C3 amended: for every roll-backward notification received while
syncing, the engine emits exactly one RollbackEvent, whose payload carries
the rollback point (the chain tip supplied with the notification is not
part of the payload). -/
theorem claim_C3_rollback_event (c : EngineState) (point : Point) (tip : Tip) :
    (handleRollBackward c point tip).2.1 =
      [eventNew "chainsync.rollback"
        (EventPayload.rollback (NewRollbackEvent point))] ∧
    (handleRollBackward c point tip).2.1.length = 1 :=
  ⟨rfl, rfl⟩

/-- C1: evaluating `handleRollForward` on a roll-forward notification that
carries a full block containing one transaction shows the divergence from
the claim: the emitted event sequence is a single BlockEvent — no
TransactionEvent is emitted for the contained transaction, although the
header arm and the bulk-fetch path do emit them. -/
theorem claim_C1_full_block_emits_no_tx_events :
    (handleRollForward (fun _ => none)
        ⟨⟨0, 0, "", 0, "", false⟩, ⟨0, []⟩, false, false⟩
        (BlockData.full
          ⟨10, 5, "aa", [⟨"tx1", [⟨[1]⟩], [⟨⟨"addr1", none⟩, none⟩], [], none⟩], []⟩)
        ⟨⟨20, [7]⟩, 9⟩).map (fun r => r.2.1) =
      Except.ok [eventNew "chainsync.block"
        (EventPayload.blk ⟨5, "aa", 10, []⟩)] ∧
    (⟨10, 5, "aa", [⟨"tx1", [⟨[1]⟩], [⟨⟨"addr1", none⟩, none⟩], [], none⟩], []⟩ :
        Block).transactions.length = 1 :=
  ⟨rfl, rfl⟩

/-- C6: a transaction event passes the filter stage iff it passes every
category whose constraint set is non-empty (categories combined by AND,
values within a category by OR over the outputs); with all three sets
empty every event passes unchanged; and a concrete transaction matching
the address category but carrying no asset of the listed policy in any
output is dropped. -/
theorem claim_C6_filter_and_semantics
    (fingerprint : List Nat → List Nat → String) (c : FilterCriteria)
    (k : String) (v : TransactionEvent) (e : Event) :
    (filterStageKeeps fingerprint c ⟨k, EventPayload.tx v⟩ = true ↔
      ((c.filterAddresses = [] ∨
          addressCategoryMatch c.filterAddresses v.outputs = true) ∧
       (c.filterPolicyIds = [] ∨
          policyCategoryMatch c.filterPolicyIds v.outputs = true) ∧
       (c.filterAssetFingerprints = [] ∨
          fingerprintCategoryMatch fingerprint c.filterAssetFingerprints
            v.outputs = true))) ∧
    (filterStageKeeps fingerprint ⟨[], [], []⟩ e = true) ∧
    (filterStageKeeps (fun _ _ => "") ⟨["addrA"], ["p1"], []⟩
      ⟨"chainsync.transaction", EventPayload.tx
        ⟨1, "bh", 2, "th", [], [], [⟨⟨"addrA", none⟩, none⟩], none⟩⟩ = false) := by
  refine ⟨?_, ?_, ?_⟩
  · simp only [filterStageKeeps]
    by_cases ha : c.filterAddresses = [] <;>
      by_cases hp : c.filterPolicyIds = [] <;>
        by_cases hf : c.filterAssetFingerprints = [] <;>
          simp_all [addressCategoryMatch, policyCategoryMatch,
            fingerprintCategoryMatch, List.length_pos]
  · cases e with
    | mk k2 p => cases p <;> simp [filterStageKeeps]
  · decide

/-- C7: a configured filter string of stake-address textual form (the
source detects that form by the "stake" name prefix) passes the address
category for a transaction one of whose outputs has a different payment
address but whose derived stake address equals the configured string
exactly. -/
theorem claim_C7_stake_address_match (c : FilterCriteria)
    (v : TransactionEvent) (filterAddress : String)
    (output : TransactionOutput)
    (hmem : filterAddress ∈ c.filterAddresses)
    (hstake : hasPrefixStr filterAddress "stake" = true)
    (hout : output ∈ v.outputs)
    (hsa : output.address.stakeAddr = some filterAddress)
    (hdiff : output.address.str ≠ filterAddress) :
    addressCategoryMatch c.filterAddresses v.outputs = true := by
  have hmatch : addressMatchOutput filterAddress output = true := by
    simp [addressMatchOutput, hstake, hsa, hdiff]
  simp only [addressCategoryMatch, List.any_eq_true]
  exact ⟨filterAddress, hmem, output, hout, hmatch⟩

/-- Witness for C7: the filter lists the stake address "stake1xyz"; the
output's payment address is "addr1pay" but its derived stake address is
exactly "stake1xyz". -/
theorem claim_C7_stake_address_match_witness :
    ("stake1xyz" ∈
      (⟨["stake1xyz"], [], []⟩ : FilterCriteria).filterAddresses) ∧
    hasPrefixStr "stake1xyz" "stake" = true ∧
    ((⟨⟨"addr1pay", some "stake1xyz"⟩, none⟩ : TransactionOutput) ∈
      (⟨1, "bh", 2, "th", [], [],
        [⟨⟨"addr1pay", some "stake1xyz"⟩, none⟩], none⟩ :
          TransactionEvent).outputs) ∧
    ((⟨⟨"addr1pay", some "stake1xyz"⟩, none⟩ :
        TransactionOutput).address.stakeAddr = some "stake1xyz") ∧
    ((⟨⟨"addr1pay", some "stake1xyz"⟩, none⟩ :
        TransactionOutput).address.str ≠ "stake1xyz") ∧
    addressCategoryMatch
      (⟨["stake1xyz"], [], []⟩ : FilterCriteria).filterAddresses
      (⟨1, "bh", 2, "th", [], [],
        [⟨⟨"addr1pay", some "stake1xyz"⟩, none⟩], none⟩ :
          TransactionEvent).outputs = true :=
  ⟨by decide, by decide, by decide, rfl, by decide,
   claim_C7_stake_address_match ⟨["stake1xyz"], [], []⟩
     ⟨1, "bh", 2, "th", [], [], [⟨⟨"addr1pay", some "stake1xyz"⟩, none⟩], none⟩
     "stake1xyz" ⟨⟨"addr1pay", some "stake1xyz"⟩, none⟩
     (by decide) (by decide) (by decide) rfl (by decide)⟩

/-- C9: when none of network name, host:port address, or socket path is
supplied, and likewise when an unrecognized network name is supplied
(lookup yields no entry), `Start` fails synchronously with the
corresponding configuration error — before dialing and before any protocol
request that could produce an event, whatever the external collaborator
would do. -/
theorem claim_C9_config_errors (networkByName : String → Option Network)
    (ops : ProtocolOps) (c : ConnConfig) :
    (c.network = "" → c.address = "" → c.socketPath = "" →
      chainSyncStart networkByName ops c = Except.error
        "you must specify a host/port, UNIX socket path, or well-known network name") ∧
    (c.network ≠ "" → networkByName c.network = none →
      chainSyncStart networkByName ops c =
        Except.error ("unknown network: " ++ c.network)) := by
  constructor
  · intro h1 h2 h3
    simp [chainSyncStart, setupConnectionParams, h1, h2, h3]
  · intro h1 h2
    simp [chainSyncStart, setupConnectionParams, h1, h2]

/-- Witness for C9: a fully empty connection target, and an unknown
network name, each against an arbitrary concrete collaborator. -/
theorem claim_C9_config_errors_witness :
    ((⟨"", "", "", false, false, false, []⟩ : ConnConfig).network = "") ∧
    ((⟨"nonet", "", "", false, false, false, []⟩ : ConnConfig).network ≠ "") ∧
    chainSyncStart (fun _ => none)
      ⟨fun _ => Except.ok (), false, fun _ => Except.error "e",
        fun _ _ => Except.error "e", Except.error "e", fun _ => Except.error "e"⟩
      ⟨"", "", "", false, false, false, []⟩ = Except.error
        "you must specify a host/port, UNIX socket path, or well-known network name" ∧
    chainSyncStart (fun _ => none)
      ⟨fun _ => Except.ok (), false, fun _ => Except.error "e",
        fun _ _ => Except.error "e", Except.error "e", fun _ => Except.error "e"⟩
      ⟨"nonet", "", "", false, false, false, []⟩ =
        Except.error ("unknown network: " ++ "nonet") :=
  ⟨rfl, by decide,
   (claim_C9_config_errors (fun _ => none)
      ⟨fun _ => Except.ok (), false, fun _ => Except.error "e",
        fun _ _ => Except.error "e", Except.error "e", fun _ => Except.error "e"⟩
      ⟨"", "", "", false, false, false, []⟩).1 rfl rfl rfl,
   (claim_C9_config_errors (fun _ => none)
      ⟨fun _ => Except.ok (), false, fun _ => Except.error "e",
        fun _ _ => Except.error "e", Except.error "e", fun _ => Except.error "e"⟩
      ⟨"nonet", "", "", false, false, false, []⟩).2 (by decide) rfl⟩

/-- C10: filter evaluation treats missing data as a non-match, never as an
error — an output carrying no asset bundle (nil `Assets()`) matches
neither the policy-ID nor the asset-fingerprint category, and an output
whose address has no derivable stake address can match the address
category only by exact address-string equality. (The embedded evaluation
functions are total by construction.) -/
theorem claim_C10_nil_is_non_match
    (fingerprint : List Nat → List Nat → String)
    (filterAddress filterPolicyId filterAssetFingerprint : String)
    (output : TransactionOutput) :
    (output.assets = none →
      policyMatchOutput filterPolicyId output = false ∧
      fingerprintMatchOutput fingerprint filterAssetFingerprint output = false) ∧
    (output.address.stakeAddr = none →
      addressMatchOutput filterAddress output =
        (output.address.str == filterAddress)) := by
  constructor
  · intro h
    constructor
    · simp [policyMatchOutput, h]
    · simp [fingerprintMatchOutput, h]
  · intro h
    cases hb : output.address.str == filterAddress <;>
      simp [addressMatchOutput, h, hb]

/-- Witness for C10: an output with no asset bundle and no derivable stake
address. -/
theorem claim_C10_nil_is_non_match_witness :
    ((⟨⟨"addrX", none⟩, none⟩ : TransactionOutput).assets = none) ∧
    ((⟨⟨"addrX", none⟩, none⟩ : TransactionOutput).address.stakeAddr = none) ∧
    (policyMatchOutput "p1" ⟨⟨"addrX", none⟩, none⟩ = false ∧
      fingerprintMatchOutput (fun _ _ => "") "fp1"
        ⟨⟨"addrX", none⟩, none⟩ = false) ∧
    addressMatchOutput "addrY" ⟨⟨"addrX", none⟩, none⟩ =
      ((⟨⟨"addrX", none⟩, none⟩ :
        TransactionOutput).address.str == "addrY") :=
  ⟨rfl, rfl,
   (claim_C10_nil_is_non_match (fun _ => fun _ => "") "addrY" "p1" "fp1"
      ⟨⟨"addrX", none⟩, none⟩).1 rfl,
   (claim_C10_nil_is_non_match (fun _ => fun _ => "") "addrY" "p1" "fp1"
      ⟨⟨"addrX", none⟩, none⟩).2 rfl⟩

end Snek
